import Mathlib

set_option maxRecDepth 8000

/-!
Verification development for the PEval pontoon-design evaluator
(`src/app.py`): a shallow embedding of its field-extraction engine
(the `re.search`-based parameter extraction, lines 56-114) and its
rule-evaluation engine (`compliance_checks` and the evaluation loop,
lines 125-194), together with theorems checking the documented
behaviour of both engines.

Numbers extracted from the text are Python ints/floats; the embedding
models them as exact rationals (`ℚ`), which agrees with Python for all
values and comparisons appearing here.
-/

namespace PEval

/-! ### A model of the `re` subset used by app.py

Every pattern in app.py is compiled with `re.I | re.DOTALL` and used via
`re.search`.  The patterns only use: literal characters, `\d+`, `\s*`,
lazy `.*?` (which, under DOTALL, matches any characters), and capture
groups.  `matchRE` enumerates, in Python's backtracking preference
order, the ways a pattern can match a prefix of the input, returning
the remaining suffix and the list of captured substrings; `reSearch`
implements `re.search`: leftmost starting position first, and at that
position the backtracking-first alternative.
-/

inductive RE : Type where
  | eps : RE
  | lit : Char → RE
  | digits : RE            -- \d+  (greedy)
  | spaces : RE            -- \s*  (greedy)
  | lazyAny : RE           -- .*?  (lazy, DOTALL)
  | grp : RE → RE          -- ( ... ) capture group
  | seq : RE → RE → RE

/-- ASCII lower-casing on a code point, for `re.I` matching. -/
def lcaseN (n : ℕ) : ℕ := if 65 ≤ n && n ≤ 90 then n + 32 else n

/-- Case-insensitive character equality (`re.I` on the ASCII patterns). -/
def ciEq (a c : Char) : Bool := lcaseN a.toNat == lcaseN c.toNat

/-- Python `\d` on ASCII input. -/
def isPyDigit (c : Char) : Bool := 48 ≤ c.toNat && c.toNat ≤ 57

/-- Python `\s` on ASCII input. -/
def isPySpace (c : Char) : Bool :=
  c.toNat = 32 || c.toNat = 9 || c.toNat = 10 || c.toNat = 13 || c.toNat = 11 || c.toNat = 12

/-- Backtracking helper for greedy pieces that must consume at least one
character: try consuming `i` characters of `s`, then `i - 1`, ..., then `1`,
handing the rest to the continuation `k`. -/
def greedyFrom (s : List Char) (k : List Char → Option (List String)) :
    ℕ → Option (List String)
  | 0 => none
  | i + 1 =>
    match k (s.drop (i + 1)) with
    | some r => some r
    | none => greedyFrom s k i

/-- Backtracking helper for greedy pieces that may consume nothing: try
consuming `i` characters, then `i - 1`, ..., then `0`. -/
def greedyFrom0 (s : List Char) (k : List Char → Option (List String)) :
    ℕ → Option (List String)
  | 0 => k s
  | i + 1 =>
    match k (s.drop (i + 1)) with
    | some r => some r
    | none => greedyFrom0 s k i

/-- Backtracking helper for lazy `.*?` (DOTALL): consume as few characters
as possible, extending one character at a time while `k` fails. -/
def lazyFrom (k : List Char → Option (List String)) : List Char → Option (List String)
  | [] => k []
  | a :: t =>
    match k (a :: t) with
    | some r => some r
    | none => lazyFrom k t

/-- Backtracking matcher in continuation-passing style: explore the ways `r`
can match a prefix of `s` in Python's preference order (greedy pieces
longest first, lazy pieces shortest first, sequences left to right) and
return the first alternative accepted by the continuation `k`, which
receives the remaining suffix and the captures accumulated so far (groups
in left-to-right order). -/
def mfirst : RE → List Char → List String →
    (List Char → List String → Option (List String)) → Option (List String)
  | .eps, s, acc, k => k s acc
  | .lit c, s, acc, k =>
    match s with
    | [] => none
    | a :: rest => if ciEq a c then k rest acc else none
  | .digits, s, acc, k =>
    greedyFrom s (fun rest => k rest acc) ((s.takeWhile isPyDigit).length)
  | .spaces, s, acc, k =>
    greedyFrom0 s (fun rest => k rest acc) ((s.takeWhile isPySpace).length)
  | .lazyAny, s, acc, k => lazyFrom (fun rest => k rest acc) s
  | .grp r, s, acc, k =>
    mfirst r s acc
      (fun s' acc' => k s' (acc' ++ [String.mk (s.take (s.length - s'.length))]))
  | .seq r₁ r₂, s, acc, k =>
    mfirst r₁ s acc (fun s' acc' => mfirst r₂ s' acc' k)

/-- `re.search`: try each starting position from the left; at the first
position where the pattern matches, return the captures of the
backtracking-first match there. -/
def reSearch (r : RE) : List Char → Option (List String)
  | [] => mfirst r [] [] (fun _ acc => some acc)
  | a :: rest =>
    match mfirst r (a :: rest) [] (fun _ acc => some acc) with
    | some caps => some caps
    | none => reSearch r rest

/-- Concatenation of a list of pattern pieces. -/
def rcat (l : List RE) : RE := l.foldr RE.seq RE.eps

/-- A literal string piece (matched case-insensitively, as with `re.I`). -/
def rlit (s : String) : RE := rcat (s.data.map RE.lit)

/-- `\d+\.\d+` — the float shape used by the patterns. -/
def floatPat : RE := rcat [.digits, .lit '.', .digits]

/-! ### Numeric coercions (`int(...)`, `float(...)`) -/

/-- Value of one ASCII digit. -/
def digitVal (c : Char) : ℕ := c.toNat - '0'.toNat

/-- Python `int` on a string of digits. -/
def parseNat (s : String) : ℕ :=
  s.data.foldl (fun n c => 10 * n + digitVal c) 0

/-- Python `float` on a string of shape `\d+` or `\d+\.\d+`, as an exact
rational. -/
def parseFloat (s : String) : ℚ :=
  let ip := s.data.takeWhile (fun c => c ≠ '.')
  let fp := (s.data.dropWhile (fun c => c ≠ '.')).tail
  (ip.foldl (fun n c => 10 * n + digitVal c) 0 : ℚ)
    + (fp.foldl (fun n c => 10 * n + digitVal c) 0 : ℚ) / (10 : ℚ) ^ fp.length

/-! ### The Field Pattern Registry (app.py lines 56-114)

One `RE` per `re.search` call, written with the same pieces in the same
order as the source pattern string.
-/

/-- `LIVE LOAD.*?(\d+\.\d+)\s*kPa.*?POINT LOAD.*?(\d+\.\d+)\s*kN` (line 58) -/
def liveLoadRE : RE :=
  rcat [rlit "LIVE LOAD", .lazyAny, .grp floatPat, .spaces, rlit "kPa",
        .lazyAny, rlit "POINT LOAD", .lazyAny, .grp floatPat, .spaces, rlit "kN"]

/-- `V100\s*=\s*(\d+)\s*m/s` (line 62) -/
def windRE : RE :=
  rcat [rlit "V100", .spaces, rlit "=", .spaces, .grp .digits, .spaces, rlit "m/s"]

/-- `WAVE HEIGHT\s*<\s*(\d+)\s*mm` (line 65) -/
def waveRE : RE :=
  rcat [rlit "WAVE HEIGHT", .spaces, rlit "<", .spaces, .grp .digits, .spaces, rlit "mm"]

/-- `VELOCITY.*?<\s*(\d+\.\d+)\s*m/s` (line 68) -/
def velocityRE : RE :=
  rcat [rlit "VELOCITY", .lazyAny, rlit "<", .spaces, .grp floatPat, .spaces, rlit "m/s"]

/-- `DEBRIS LOADS.*?(\d+\.\d+)\s*m.*?(\d+\.\d+)\s*TONNE` (line 71) -/
def debrisRE : RE :=
  rcat [rlit "DEBRIS LOADS", .lazyAny, .grp floatPat, .spaces, rlit "m",
        .lazyAny, .grp floatPat, .spaces, rlit "TONNE"]

/-- `LENGTH\s*=\s*(\d+\.\d+)\s*m` (line 75) -/
def lengthRE : RE :=
  rcat [rlit "LENGTH", .spaces, rlit "=", .spaces, .grp floatPat, .spaces, rlit "m"]

/-- `BEAM\s*=\s*(\d+\.\d+)\s*m` (line 77) -/
def beamRE : RE :=
  rcat [rlit "BEAM", .spaces, rlit "=", .spaces, .grp floatPat, .spaces, rlit "m"]

/-- `MASS\s*=\s*(\d+,\d+)\s*kg` (line 79) -/
def massRE : RE :=
  rcat [rlit "MASS", .spaces, rlit "=", .spaces,
        .grp (rcat [.digits, .lit ',', .digits]), .spaces, rlit "kg"]

/-- `DEAD LOAD ONLY\s*=\s*(\d+)-(\d+)mm` (line 82) -/
def deadLoadRE : RE :=
  rcat [rlit "DEAD LOAD ONLY", .spaces, rlit "=", .spaces,
        .grp .digits, rlit "-", .grp .digits, rlit "mm"]

/-- `MIN\s*(\d+)\s*mm` (line 84) -/
def minRE : RE :=
  rcat [rlit "MIN", .spaces, .grp .digits, .spaces, rlit "mm"]

/-- `DECK SLOPE\s*=\s*1:(\d+)` (line 87) -/
def deckSlopeRE : RE :=
  rcat [rlit "DECK SLOPE", .spaces, rlit "=", .spaces, rlit "1:", .grp .digits]

/-- `PONTOON CONCRETE.*?(\d+)\s*MPa` (line 90) -/
def concStrengthRE : RE :=
  rcat [rlit "PONTOON CONCRETE", .lazyAny, .grp .digits, .spaces, rlit "MPa"]

/-- `COVER.*?(\d+)\s*mm` (line 92) -/
def coverRE : RE :=
  rcat [rlit "COVER", .lazyAny, .grp .digits, .spaces, rlit "mm"]

/-- `COATING MASS.*?(\d+)\s*g/sqm` (line 95) -/
def galvRE : RE :=
  rcat [rlit "COATING MASS", .lazyAny, .grp .digits, .spaces, rlit "g/sqm"]

/-- `MINIMUM GRADE\s*(\d+\s*T\d+)` (line 98) -/
def alumRE : RE :=
  rcat [rlit "MINIMUM GRADE", .spaces, .grp (rcat [.digits, .spaces, .lit 'T', .digits])]

/-- `MINIMUM\s*(F\d+)` (line 101) -/
def timberRE : RE :=
  rcat [rlit "MINIMUM", .spaces, .grp (rcat [.lit 'F', .digits])]

/-- `FIXINGS TO BE\s*(\d+)\s*GRADE` (line 104) -/
def fixingsRE : RE :=
  rcat [rlit "FIXINGS TO BE", .spaces, .grp .digits, .spaces, rlit "GRADE"]

/-- `MAX\s*(\d+)mm\s*SCOUR` (line 107) -/
def scourRE : RE :=
  rcat [rlit "MAX", .spaces, .grp .digits, rlit "mm", .spaces, rlit "SCOUR"]

/-- `TOLERANCE.*?(\d+)mm` (line 110) -/
def toleranceRE : RE :=
  rcat [rlit "TOLERANCE", .lazyAny, .grp .digits, rlit "mm"]

/-- `COHESION\s*=\s*(\d+)kPa` (line 113) -/
def cohesionRE : RE :=
  rcat [rlit "COHESION", .spaces, .grp .digits, rlit "kPa"]

/-! ### The extracted field map

The source accumulates a Python dict `params` whose keys are fixed by
the extraction block (lines 56-114).  The embedding is a record with
one `Option`-typed field per key, in the source's insertion order:
a key absent from the dict is the field being `none`.  Numeric values
(`int(...)`, `float(...)`) are rationals; the three grade fields are
the strings the source stores.
-/

structure Params : Type where
  live_load_uniform : Option ℚ
  live_load_point : Option ℚ
  wind_ultimate : Option ℚ
  wave_height : Option ℚ
  current_velocity : Option ℚ
  debris_mat_depth : Option ℚ
  debris_log_mass : Option ℚ
  vessel_length : Option ℚ
  vessel_beam : Option ℚ
  vessel_mass : Option ℚ
  freeboard_dead : Option ℚ
  freeboard_critical : Option ℚ
  deck_slope_max : Option ℚ
  concrete_strength : Option ℚ
  concrete_cover : Option ℚ
  steel_galvanizing : Option ℚ
  aluminium_grade : Option String
  timber_grade : Option String
  fixings_grade : Option String
  scour_allowance : Option ℚ
  pile_tolerance : Option ℚ
  soil_cohesion : Option ℚ
deriving DecidableEq

/-! Per-field extraction (app.py lines 56-114): each field is set from the
captures of its own `re.search` call, or left absent when the search
fails.  The two compound patterns (live load, debris) bind their two
fields from the two groups of the one match. -/

/-- line 59: `float(m.group(1))` of the live-load pattern. -/
def liveLoadUniformVal (s : List Char) : Option ℚ :=
  match reSearch liveLoadRE s with
  | some (a :: _ :: _) => some (parseFloat a)
  | _ => none

/-- line 60: `float(m.group(2))` of the live-load pattern. -/
def liveLoadPointVal (s : List Char) : Option ℚ :=
  match reSearch liveLoadRE s with
  | some (_ :: b :: _) => some (parseFloat b)
  | _ => none

/-- line 63: `int(m.group(1))` of the wind pattern. -/
def windUltimateVal (s : List Char) : Option ℚ :=
  match reSearch windRE s with
  | some (d :: _) => some ((parseNat d : ℚ))
  | _ => none

/-- line 66: `int(m.group(1)) / 1000.0` of the wave-height pattern — the
millimetre value is coerced to int first, then converted to metres. -/
def waveHeightVal (s : List Char) : Option ℚ :=
  match reSearch waveRE s with
  | some (d :: _) => some ((parseNat d : ℚ) / 1000)
  | _ => none

/-- line 69: `float(m.group(1))` of the velocity pattern. -/
def currentVelocityVal (s : List Char) : Option ℚ :=
  match reSearch velocityRE s with
  | some (a :: _) => some (parseFloat a)
  | _ => none

/-- line 72: `float(m.group(1))` of the debris pattern. -/
def debrisMatDepthVal (s : List Char) : Option ℚ :=
  match reSearch debrisRE s with
  | some (a :: _ :: _) => some (parseFloat a)
  | _ => none

/-- line 73: `float(m.group(2))` of the debris pattern. -/
def debrisLogMassVal (s : List Char) : Option ℚ :=
  match reSearch debrisRE s with
  | some (_ :: b :: _) => some (parseFloat b)
  | _ => none

/-- line 76: `float(m.group(1))` of the length pattern. -/
def vesselLengthVal (s : List Char) : Option ℚ :=
  match reSearch lengthRE s with
  | some (a :: _) => some (parseFloat a)
  | _ => none

/-- line 78: `float(m.group(1))` of the beam pattern. -/
def vesselBeamVal (s : List Char) : Option ℚ :=
  match reSearch beamRE s with
  | some (a :: _) => some (parseFloat a)
  | _ => none

/-- line 80: `int(m.group(1).replace(",", ""))` of the mass pattern. -/
def vesselMassVal (s : List Char) : Option ℚ :=
  match reSearch massRE s with
  | some (a :: _) => some ((parseNat (String.mk (a.data.filter (fun c => c ≠ ','))) : ℚ))
  | _ => none

/-- line 83: `(int(m.group(1)) + int(m.group(2))) / 2` — the millimetre
range endpoints are averaged with Python true division (no unit
conversion). -/
def freeboardDeadVal (s : List Char) : Option ℚ :=
  match reSearch deadLoadRE s with
  | some (a :: b :: _) => some (((parseNat a : ℚ) + (parseNat b : ℚ)) / 2)
  | _ => none

/-- line 85: `int(m.group(1))` of the MIN pattern. -/
def freeboardCriticalVal (s : List Char) : Option ℚ :=
  match reSearch minRE s with
  | some (d :: _) => some ((parseNat d : ℚ))
  | _ => none

/-- line 88: `int(m.group(1))` of the deck-slope pattern. -/
def deckSlopeMaxVal (s : List Char) : Option ℚ :=
  match reSearch deckSlopeRE s with
  | some (d :: _) => some ((parseNat d : ℚ))
  | _ => none

/-- line 91: `int(m.group(1))` of the concrete-strength pattern. -/
def concreteStrengthVal (s : List Char) : Option ℚ :=
  match reSearch concStrengthRE s with
  | some (d :: _) => some ((parseNat d : ℚ))
  | _ => none

/-- line 93: `int(m.group(1))` of the cover pattern. -/
def concreteCoverVal (s : List Char) : Option ℚ :=
  match reSearch coverRE s with
  | some (d :: _) => some ((parseNat d : ℚ))
  | _ => none

/-- line 96: `int(m.group(1))` of the coating-mass pattern. -/
def steelGalvanizingVal (s : List Char) : Option ℚ :=
  match reSearch galvRE s with
  | some (d :: _) => some ((parseNat d : ℚ))
  | _ => none

/-- line 99: `m.group(1).replace(" ", "")` of the aluminium-grade pattern. -/
def aluminiumGradeVal (s : List Char) : Option String :=
  match reSearch alumRE s with
  | some (g :: _) => some (String.mk (g.data.filter (fun c => c ≠ ' ')))
  | _ => none

/-- line 102: `m.group(1)` of the timber-grade pattern. -/
def timberGradeVal (s : List Char) : Option String :=
  match reSearch timberRE s with
  | some (g :: _) => some g
  | _ => none

/-- line 105: `m.group(1)` of the fixings pattern (kept as a string). -/
def fixingsGradeVal (s : List Char) : Option String :=
  match reSearch fixingsRE s with
  | some (g :: _) => some g
  | _ => none

/-- line 108: `int(m.group(1))` of the scour pattern. -/
def scourAllowanceVal (s : List Char) : Option ℚ :=
  match reSearch scourRE s with
  | some (d :: _) => some ((parseNat d : ℚ))
  | _ => none

/-- line 111: `int(m.group(1))` of the tolerance pattern. -/
def pileToleranceVal (s : List Char) : Option ℚ :=
  match reSearch toleranceRE s with
  | some (d :: _) => some ((parseNat d : ℚ))
  | _ => none

/-- line 114: `int(m.group(1))` of the cohesion pattern. -/
def soilCohesionVal (s : List Char) : Option ℚ :=
  match reSearch cohesionRE s with
  | some (d :: _) => some ((parseNat d : ℚ))
  | _ => none

/-- The Field Extraction Engine (app.py lines 56-114): the whole `params`
dict produced for one document text. -/
def extract (text : String) : Params where
  live_load_uniform := liveLoadUniformVal text.data
  live_load_point := liveLoadPointVal text.data
  wind_ultimate := windUltimateVal text.data
  wave_height := waveHeightVal text.data
  current_velocity := currentVelocityVal text.data
  debris_mat_depth := debrisMatDepthVal text.data
  debris_log_mass := debrisLogMassVal text.data
  vessel_length := vesselLengthVal text.data
  vessel_beam := vesselBeamVal text.data
  vessel_mass := vesselMassVal text.data
  freeboard_dead := freeboardDeadVal text.data
  freeboard_critical := freeboardCriticalVal text.data
  deck_slope_max := deckSlopeMaxVal text.data
  concrete_strength := concreteStrengthVal text.data
  concrete_cover := concreteCoverVal text.data
  steel_galvanizing := steelGalvanizingVal text.data
  aluminium_grade := aluminiumGradeVal text.data
  timber_grade := timberGradeVal text.data
  fixings_grade := fixingsGradeVal text.data
  scour_allowance := scourAllowanceVal text.data
  pile_tolerance := pileToleranceVal text.data
  soil_cohesion := soilCohesionVal text.data

/-! ### The Rule Evaluation Engine (app.py lines 125-166)

`compliance_checks` is a list of records; each record's `func` is a
Python lambda applied to `params.get(key)` — an `Option`al value.  A
lambda returns a bool, a string, or raises a `TypeError` (Python's
result of comparing `None` or a `str` against a number), so the
embedding gives every `func` the type
`Option PVal → Except String PyRet`.
-/

/-- A value stored in the `params` dict: a Python number (int/float,
modelled as `ℚ`) or string. -/
inductive PVal : Type where
  | num : ℚ → PVal
  | vstr : String → PVal
deriving DecidableEq

/-- What a rule lambda returns when it does not raise: a Python bool or
string. -/
inductive PyRet : Type where
  | bool : Bool → PyRet
  | pstr : String → PyRet
deriving DecidableEq

/-- One entry of the `compliance_checks` list (lines 126-144). -/
structure Check : Type where
  name : String
  req : String
  key : String
  func : Option PVal → Except String PyRet
  ref : String

/-- `params.get(key)` (line 152) over the typed record: numeric fields
are wrapped as `PVal.num`, the grade strings as `PVal.vstr`; a key whose
field is absent yields `none`. -/
def paramsGet (p : Params) (key : String) : Option PVal :=
  if key = "live_load_uniform" then p.live_load_uniform.map PVal.num
  else if key = "live_load_point" then p.live_load_point.map PVal.num
  else if key = "wind_ultimate" then p.wind_ultimate.map PVal.num
  else if key = "wave_height" then p.wave_height.map PVal.num
  else if key = "current_velocity" then p.current_velocity.map PVal.num
  else if key = "debris_mat_depth" then p.debris_mat_depth.map PVal.num
  else if key = "debris_log_mass" then p.debris_log_mass.map PVal.num
  else if key = "vessel_length" then p.vessel_length.map PVal.num
  else if key = "vessel_beam" then p.vessel_beam.map PVal.num
  else if key = "vessel_mass" then p.vessel_mass.map PVal.num
  else if key = "freeboard_dead" then p.freeboard_dead.map PVal.num
  else if key = "freeboard_critical" then p.freeboard_critical.map PVal.num
  else if key = "deck_slope_max" then p.deck_slope_max.map PVal.num
  else if key = "concrete_strength" then p.concrete_strength.map PVal.num
  else if key = "concrete_cover" then p.concrete_cover.map PVal.num
  else if key = "steel_galvanizing" then p.steel_galvanizing.map PVal.num
  else if key = "aluminium_grade" then p.aluminium_grade.map PVal.vstr
  else if key = "timber_grade" then p.timber_grade.map PVal.vstr
  else if key = "fixings_grade" then p.fixings_grade.map PVal.vstr
  else if key = "scour_allowance" then p.scour_allowance.map PVal.num
  else if key = "pile_tolerance" then p.pile_tolerance.map PVal.num
  else if key = "soil_cohesion" then p.soil_cohesion.map PVal.num
  else none

/-- Python `"316" in str(v)` substring test on the string form of a
grade value. -/
def containsSub (needle hay : List Char) : Bool :=
  match hay with
  | [] => needle.isEmpty
  | _ :: t => if needle.isPrefixOf hay then true else containsSub needle t

/-! The 19 checks, lines 126-144.  Every lambda except concrete cover has
the shape `<comparison> if v is not None else False`: the `None` test is
evaluated first, so an absent value returns `False` without touching the
comparison; a present numeric value is compared (a string there would
raise, which the typed `paramsGet` never produces for these keys). -/

/-- line 126: `lambda v: v >= 3.0 if v is not None else False`. -/
def liveLoadUniformCheck : Check :=
  ⟨"Live load uniform", "≥ 3.0 kPa", "live_load_uniform",
    fun v => match v with
      | some (.num q) => .ok (.bool (decide ((3.0 : ℚ) ≤ q)))
      | some (.vstr _) => .error "TypeError"
      | none => .ok (.bool false),
    "AS 3962:2020 §2 & 4"⟩

/-- line 127: `lambda v: v >= 4.5 if v is not None else False`. -/
def liveLoadPointCheck : Check :=
  ⟨"Live load point", "≥ 4.5 kN", "live_load_point",
    fun v => match v with
      | some (.num q) => .ok (.bool (decide ((4.5 : ℚ) ≤ q)))
      | some (.vstr _) => .error "TypeError"
      | none => .ok (.bool false),
    "AS 3962:2020 §4"⟩

/-- line 128: `lambda v: v >= 64 if v is not None else False`. -/
def windUltimateCheck : Check :=
  ⟨"Wind ultimate", "≥ 64 m/s", "wind_ultimate",
    fun v => match v with
      | some (.num q) => .ok (.bool (decide ((64 : ℚ) ≤ q)))
      | some (.vstr _) => .error "TypeError"
      | none => .ok (.bool false),
    "AS/NZS 1170.2:2021 Cl 3.2"⟩

/-- line 129: `lambda v: v <= 0.5 if v is not None else False`. -/
def waveHeightCheck : Check :=
  ⟨"Wave height", "≤ 0.5 m", "wave_height",
    fun v => match v with
      | some (.num q) => .ok (.bool (decide (q ≤ (0.5 : ℚ))))
      | some (.vstr _) => .error "TypeError"
      | none => .ok (.bool false),
    "AS 3962:2020 §2.3.3"⟩

/-- line 130: `lambda v: v <= 1.5 if v is not None else False`. -/
def currentVelocityCheck : Check :=
  ⟨"Current velocity", "≤ 1.5 m/s", "current_velocity",
    fun v => match v with
      | some (.num q) => .ok (.bool (decide (q ≤ (1.5 : ℚ))))
      | some (.vstr _) => .error "TypeError"
      | none => .ok (.bool false),
    "AS 3962:2020 §2"⟩

/-- line 131: `lambda v: v >= 1.0 if v is not None else False`. -/
def debrisMatCheck : Check :=
  ⟨"Debris mat depth", "≥ 1.0 m", "debris_mat_depth",
    fun v => match v with
      | some (.num q) => .ok (.bool (decide ((1.0 : ℚ) ≤ q)))
      | some (.vstr _) => .error "TypeError"
      | none => .ok (.bool false),
    "AS 4997:2005 §3"⟩

/-- line 132: `lambda v: 300 <= v <= 600 if v is not None else False`. -/
def freeboardDeadCheck : Check :=
  ⟨"Freeboard (dead)", "300–600 mm", "freeboard_dead",
    fun v => match v with
      | some (.num q) => .ok (.bool (decide ((300 : ℚ) ≤ q ∧ q ≤ (600 : ℚ))))
      | some (.vstr _) => .error "TypeError"
      | none => .ok (.bool false),
    "AS 3962:2020 §3"⟩

/-- line 133: `lambda v: v >= 50 if v is not None else False`. -/
def freeboardCriticalCheck : Check :=
  ⟨"Freeboard (critical)", "≥ 50 mm", "freeboard_critical",
    fun v => match v with
      | some (.num q) => .ok (.bool (decide ((50 : ℚ) ≤ q)))
      | some (.vstr _) => .error "TypeError"
      | none => .ok (.bool false),
    "AS 4997:2005 §4"⟩

/-- line 134: `lambda v: v < 10 if v is not None else False`. -/
def deckSlopeCheck : Check :=
  ⟨"Max deck slope", "< 10°", "deck_slope_max",
    fun v => match v with
      | some (.num q) => .ok (.bool (decide (q < (10 : ℚ))))
      | some (.vstr _) => .error "TypeError"
      | none => .ok (.bool false),
    "AS 3962:2020 §3"⟩

/-- line 135: `lambda v: v >= 40 if v is not None else False`. -/
def concreteStrengthCheck : Check :=
  ⟨"Concrete strength", "≥ 40 MPa", "concrete_strength",
    fun v => match v with
      | some (.num q) => .ok (.bool (decide ((40 : ℚ) ≤ q)))
      | some (.vstr _) => .error "TypeError"
      | none => .ok (.bool false),
    "AS 3600:2018 T4.3"⟩

/-- line 136:
`lambda v: "Compliant" if v >= 65 else ("Conditional" if v >= 50 else "Review") if v is not None else "N/A"`.

Python parses a chain `A if c1 else B if c2 else C` as
`A if c1 else (B if c2 else C)`, so the body is
`"Compliant" if (v >= 65) else ((...) if (v is not None) else "N/A")`
and the FIRST expression evaluated is `v >= 65`.  When `v` is `None`
that comparison raises `TypeError`, so the `"N/A"` arm written in the
source is unreachable; when `v` is a number the lambda returns the
tiered string. -/
def concreteCoverCheck : Check :=
  ⟨"Concrete cover", "50 mm (C1); 65 mm (C2)", "concrete_cover",
    fun v => match v with
      | some (.num q) =>
        .ok (.pstr (if (65 : ℚ) ≤ q then "Compliant"
                    else if (50 : ℚ) ≤ q then "Conditional" else "Review"))
      | some (.vstr _) => .error "TypeError"
      | none => .error "TypeError",
    "AS 3600:2018 T4.3"⟩

/-- line 137: `lambda v: v >= 600 if v is not None else False`. -/
def steelGalvanizingCheck : Check :=
  ⟨"Steel galvanizing", "≥ 600 g/m²", "steel_galvanizing",
    fun v => match v with
      | some (.num q) => .ok (.bool (decide ((600 : ℚ) ≤ q)))
      | some (.vstr _) => .error "TypeError"
      | none => .ok (.bool false),
    "AS 3962:2020 §5"⟩

/-- line 138: `lambda v: v == "6061T6" if v is not None else False`
(`==` between a number and a string is `False` in Python, not an error). -/
def aluminiumGradeCheck : Check :=
  ⟨"Aluminium grade", "6061-T6", "aluminium_grade",
    fun v => match v with
      | some (.vstr g) => .ok (.bool (decide (g = "6061T6")))
      | some (.num _) => .ok (.bool false)
      | none => .ok (.bool false),
    "AS 1664"⟩

/-- line 139: `lambda v: v == "F17" if v is not None else False`. -/
def timberGradeCheck : Check :=
  ⟨"Timber grade", "F17", "timber_grade",
    fun v => match v with
      | some (.vstr g) => .ok (.bool (decide (g = "F17")))
      | some (.num _) => .ok (.bool false)
      | none => .ok (.bool false),
    "AS 1720.1"⟩

/-- line 140: `lambda v: "316" in str(v) if v is not None else False`
(this field is extracted as a string; the numeric branch is unreachable
through `paramsGet`). -/
def fixingsCheck : Check :=
  ⟨"Fixings", "316 SS", "fixings_grade",
    fun v => match v with
      | some (.vstr g) => .ok (.bool (containsSub ("316").data g.data))
      | some (.num _) => .ok (.bool false)
      | none => .ok (.bool false),
    "AS 3962:2020 §5"⟩

/-- line 141: `lambda v: 300 <= v <= 1000 if v is not None else False`. -/
def scourCheck : Check :=
  ⟨"Max scour allowance", "300–1000 mm", "scour_allowance",
    fun v => match v with
      | some (.num q) => .ok (.bool (decide ((300 : ℚ) ≤ q ∧ q ≤ (1000 : ℚ))))
      | some (.vstr _) => .error "TypeError"
      | none => .ok (.bool false),
    "AS 4997:2005 §3"⟩

/-- line 142: `lambda v: v <= 100 if v is not None else False`. -/
def pileToleranceCheck : Check :=
  ⟨"Pile tolerance", "≤ 100 mm", "pile_tolerance",
    fun v => match v with
      | some (.num q) => .ok (.bool (decide (q ≤ (100 : ℚ))))
      | some (.vstr _) => .error "TypeError"
      | none => .ok (.bool false),
    "AS 3962:2020 §4"⟩

/-- line 143: `lambda v: v >= 100 if v is not None else False`. -/
def soilCohesionCheck : Check :=
  ⟨"Soil cohesion", "≥ 100 kPa", "soil_cohesion",
    fun v => match v with
      | some (.num q) => .ok (.bool (decide ((100 : ℚ) ≤ q)))
      | some (.vstr _) => .error "TypeError"
      | none => .ok (.bool false),
    "AS 4997:2005 §4"⟩

/-- line 144: `lambda v: v <= 33000 if v is not None else False`. -/
def vesselMassCheck : Check :=
  ⟨"Vessel mass", "≤ 33,000 kg", "vessel_mass",
    fun v => match v with
      | some (.num q) => .ok (.bool (decide (q ≤ (33000 : ℚ))))
      | some (.vstr _) => .error "TypeError"
      | none => .ok (.bool false),
    "AS 3962:2020 §3"⟩

/-- The Rule Registry, in the source's declaration order (lines 125-145). -/
def compliance_checks : List Check :=
  [liveLoadUniformCheck, liveLoadPointCheck, windUltimateCheck, waveHeightCheck,
   currentVelocityCheck, debrisMatCheck, freeboardDeadCheck, freeboardCriticalCheck,
   deckSlopeCheck, concreteStrengthCheck, concreteCoverCheck, steelGalvanizingCheck,
   aluminiumGradeCheck, timberGradeCheck, fixingsCheck, scourCheck,
   pileToleranceCheck, soilCohesionCheck, vesselMassCheck]

/-- One row of `table_data` (lines 160-166). -/
structure Row : Type where
  check : String
  required : String
  value : Option PVal
  status : String
  ref : String
deriving DecidableEq

/-- The status expression of line 153:
`"Compliant" if f is True else ("Review" if f is False else f if isinstance(f, str) else "N/A")`
applied to a lambda result that did not raise.  The lambdas return only
bools and strings, so the final `"N/A"` arm of line 153 is unreachable. -/
def statusExpr : PyRet → String
  | .bool true => "Compliant"
  | .bool false => "Review"
  | .pstr s => s

/-- The status computed for one rule (lines 152-153), or the `TypeError`
the lambda raises. -/
def statusOf (c : Check) (p : Params) : Except String String :=
  match c.func (paramsGet p c.key) with
  | .ok r => .ok (statusExpr r)
  | .error e => .error e

/-- One `table_data` row for one rule (lines 152-166), or the raised
error.  `value` is the raw `params.get(c["key"])` shown in the report. -/
def evalRow (c : Check) (p : Params) : Except String Row :=
  match statusOf c p with
  | .ok st => .ok ⟨c.name, c.req, paramsGet p c.key, st, c.ref⟩
  | .error e => .error e

/-- The evaluation loop (lines 151-166): rules are processed in registry
order; a raised exception aborts the loop (it propagates to the
top-level handler of line 424), discarding the table. -/
def evalRows : List Check → Params → Except String (List Row)
  | [], _ => .ok []
  | c :: cs, p =>
    match evalRow c p with
    | .error e => .error e
    | .ok r =>
      match evalRows cs p with
      | .error e => .error e
      | .ok rs => .ok (r :: rs)

/-- Full evaluation of the Rule Registry against one extracted field map. -/
def evalChecks (p : Params) : Except String (List Row) :=
  evalRows compliance_checks p

/-! ### The aggregate summary (app.py lines 181-194)

Lines 181-185 recompute the counters from `table_data` (overwriting the
in-loop counters of lines 148-159) and band the risk level; line 191
prints `Compliant: len(table_data) - non_compliant_count`. -/

/-- line 181: rows whose status is `"Review"` or `"Conditional"`. -/
def nonCompliantRows (rows : List Row) : List Row :=
  rows.filter (fun r => r.status == "Review" || r.status == "Conditional")

/-- line 182: `non_compliant_count = len(non_compliant)`. -/
def nonCompliantCount (rows : List Row) : ℕ := (nonCompliantRows rows).length

/-- line 183: `review_count`. -/
def reviewCount (rows : List Row) : ℕ :=
  (rows.filter (fun r => r.status == "Review")).length

/-- line 184: `conditional_count`. -/
def conditionalCount (rows : List Row) : ℕ :=
  (rows.filter (fun r => r.status == "Conditional")).length

/-- line 185: `risk_level = "Low" if n <= 5 else ("Medium" if n <= 9 else "High")`. -/
def riskLevel (n : ℕ) : String :=
  if n ≤ 5 then "Low" else if n ≤ 9 then "Medium" else "High"

/-- line 191 of `summary_text`: `Compliant: len(table_data) - non_compliant_count`. -/
def summaryCompliant (rows : List Row) : ℕ := rows.length - nonCompliantCount rows

/-! ### Claims -/

/-- Claim C1.  The claim says a rule whose field is absent yields `N/A`.
The code disagrees twice: for a text with no concrete-cover phrase,
`concrete_cover` is indeed absent, but (i) a rule such as live-load
uniform maps the absent field to `False`, which line 153 renders as
`"Review"`, not `"N/A"`; and (ii) the concrete-cover rule itself raises
`TypeError` (its `"N/A"` arm is unreachable — see `concreteCoverCheck`),
so the whole evaluation aborts instead of reporting `N/A`. -/
theorem c1_absent_field_not_na :
    (extract "").concrete_cover = none ∧
    statusOf liveLoadUniformCheck (extract "") = .ok "Review" ∧
    statusOf concreteCoverCheck (extract "") = .error "TypeError" ∧
    evalChecks (extract "") = .error "TypeError" := by
  refine ⟨?_, ?_, ?_, ?_⟩ <;> with_unfolding_all rfl

/-- Claim C2.  The claim says evaluating the rule list never raises and
every rule still produces its own result when a field is missing.  For
the text `"V100 = 55 m/s"`, `concrete_cover` is missing; the wind rule
and the vessel-mass rule each evaluate fine in isolation, yet the loop
raises `TypeError` at the concrete-cover rule, so the rules after it
(including vessel mass) never produce a result. -/
theorem c2_missing_field_aborts_evaluation :
    (extract "V100 = 55 m/s").concrete_cover = none ∧
    statusOf windUltimateCheck (extract "V100 = 55 m/s") = .ok "Review" ∧
    statusOf vesselMassCheck (extract "V100 = 55 m/s") = .ok "Review" ∧
    evalChecks (extract "V100 = 55 m/s") = .error "TypeError" := by
  refine ⟨?_, ?_, ?_, ?_⟩ <;> with_unfolding_all rfl

/-- Claim C3: the text `"COVER 58 mm"` extracts `concrete_cover = 58`,
and the tiered concrete-cover rule (≥ 65 Compliant, ≥ 50 Conditional,
else Review) evaluates to status `Conditional`. -/
theorem c3_cover_58_conditional :
    (extract "COVER 58 mm").concrete_cover = some 58 ∧
    statusOf concreteCoverCheck (extract "COVER 58 mm") = .ok "Conditional" := by
  refine ⟨?_, ?_⟩ <;> with_unfolding_all rfl

/-- Claim C4: the text `"LIVE LOAD 3.5 kPa OR POINT LOAD 5.0 kN"`
extracts `live_load_uniform = 3.5` and `live_load_point = 5.0`, and the
rule requiring `live_load_uniform ≥ 3.0` evaluates to `Compliant`. -/
theorem c4_live_load_compliant :
    (extract "LIVE LOAD 3.5 kPa OR POINT LOAD 5.0 kN").live_load_uniform = some (3.5 : ℚ) ∧
    (extract "LIVE LOAD 3.5 kPa OR POINT LOAD 5.0 kN").live_load_point = some (5.0 : ℚ) ∧
    statusOf liveLoadUniformCheck (extract "LIVE LOAD 3.5 kPa OR POINT LOAD 5.0 kN")
      = .ok "Compliant" := by
  refine ⟨?_, ?_, ?_⟩ <;> with_unfolding_all rfl

/-- Claim C5: the text `"V100 = 55 m/s"` extracts `wind_ultimate = 55`,
and the rule requiring `wind_ultimate ≥ 64` evaluates to `Review` — a
present-but-failing numeric field maps to `Review`, not to an error. -/
theorem c5_wind_55_review :
    (extract "V100 = 55 m/s").wind_ultimate = some 55 ∧
    statusOf windUltimateCheck (extract "V100 = 55 m/s") = .ok "Review" := by
  refine ⟨?_, ?_⟩ <;> with_unfolding_all rfl

/-- Claim C6: whenever the wave-height pattern matches with captured
digits `d`, extraction stores `int(d) / 1000` — millimetres converted to
metres after the numeric coercion — and multiplying the stored value by
1000 recovers the captured integer exactly (the conversion round-trips). -/
theorem c6_wave_height_round_trip (text d : String)
    (h : reSearch waveRE text.data = some [d]) :
    (extract text).wave_height = some ((parseNat d : ℚ) / 1000) ∧
    ((parseNat d : ℚ) / 1000) * 1000 = (parseNat d : ℚ) := by
  constructor
  · show waveHeightVal text.data = _
    unfold waveHeightVal
    rw [h]
  · exact div_mul_cancel₀ _ (by norm_num)

/-- Witness for C6 at the spec's example `"WAVE HEIGHT < 500mm"`
(where the stored value is `500 / 1000 = 0.5` metres). -/
theorem c6_wave_height_round_trip_witness :
    (extract "WAVE HEIGHT < 500mm").wave_height = some ((parseNat "500" : ℚ) / 1000) ∧
    ((parseNat "500" : ℚ) / 1000) * 1000 = (parseNat "500" : ℚ) :=
  c6_wave_height_round_trip "WAVE HEIGHT < 500mm" "500" (by with_unfolding_all rfl)

/-- Claim C7: the compound live-load pattern binds `live_load_uniform`
and `live_load_point` from one match and the compound debris pattern
binds `debris_mat_depth` and `debris_log_mass` from one match, so for
every input text each pair is either fully present or fully absent. -/
theorem c7_compound_both_or_neither (text : String) :
    ((extract text).live_load_uniform = none ↔ (extract text).live_load_point = none) ∧
    ((extract text).debris_mat_depth = none ↔ (extract text).debris_log_mass = none) := by
  constructor
  · show liveLoadUniformVal text.data = none ↔ liveLoadPointVal text.data = none
    unfold liveLoadUniformVal liveLoadPointVal
    rcases reSearch liveLoadRE text.data with _ | (_ | ⟨a, _ | ⟨b, rest⟩⟩) <;> simp
  · show debrisMatDepthVal text.data = none ↔ debrisLogMassVal text.data = none
    unfold debrisMatDepthVal debrisLogMassVal
    rcases reSearch debrisRE text.data with _ | (_ | ⟨a, _ | ⟨b, rest⟩⟩) <;> simp

/-- Claim C9: the summary banding is a pure function of the
Review/Conditional count `n`: `Low` exactly when `n ≤ 5`, `Medium`
exactly when `6 ≤ n ≤ 9`, `High` exactly when `n ≥ 10`; the
Review/Conditional count splits into the two per-status counts; and the
summary's Compliant line prints the total number of rows minus `n`. -/
theorem c9_risk_banding (rows : List Row) :
    (riskLevel (nonCompliantCount rows) = "Low" ↔ nonCompliantCount rows ≤ 5) ∧
    (riskLevel (nonCompliantCount rows) = "Medium" ↔
      (6 ≤ nonCompliantCount rows ∧ nonCompliantCount rows ≤ 9)) ∧
    (riskLevel (nonCompliantCount rows) = "High" ↔ 10 ≤ nonCompliantCount rows) ∧
    nonCompliantCount rows = reviewCount rows + conditionalCount rows ∧
    summaryCompliant rows = rows.length - nonCompliantCount rows := by
  have hLM : ("Low" : String) ≠ "Medium" := by decide
  have hLH : ("Low" : String) ≠ "High" := by decide
  have hML : ("Medium" : String) ≠ "Low" := by decide
  have hMH : ("Medium" : String) ≠ "High" := by decide
  have hHL : ("High" : String) ≠ "Low" := by decide
  have hHM : ("High" : String) ≠ "Medium" := by decide
  have hadd : ∀ l : List Row, nonCompliantCount l = reviewCount l + conditionalCount l := by
    intro l
    induction l with
    | nil => rfl
    | cons r t ih =>
      have hRC : (("Review" : String) == "Conditional") = false := by decide
      have hCR : (("Conditional" : String) == "Review") = false := by decide
      simp only [nonCompliantCount, nonCompliantRows, reviewCount, conditionalCount,
        List.filter_cons] at ih ⊢
      by_cases h1 : r.status = "Review"
      · simp [h1, hRC, ih]
        omega
      · by_cases h2 : r.status = "Conditional"
        · simp [h2, hCR, ih]
          omega
        · have b1 : (r.status == "Review") = false := by
            simp [h1]
          have b2 : (r.status == "Conditional") = false := by
            simp [h2]
          simp [b1, b2, ih]
  refine ⟨?_, ?_, ?_, hadd rows, rfl⟩
  · by_cases h5 : nonCompliantCount rows ≤ 5
    · simp [riskLevel, h5]
    · by_cases h9 : nonCompliantCount rows ≤ 9 <;> simp [riskLevel, h5, h9, hML, hHL]
  · by_cases h5 : nonCompliantCount rows ≤ 5
    · simp [riskLevel, h5, hLM]
      omega
    · by_cases h9 : nonCompliantCount rows ≤ 9
      · simp [riskLevel, h5, h9]
        omega
      · simp [riskLevel, h5, h9, hHM]
  · by_cases h5 : nonCompliantCount rows ≤ 5
    · simp [riskLevel, h5, hLH]
      omega
    · by_cases h9 : nonCompliantCount rows ≤ 9
      · simp [riskLevel, h5, h9, hMH]
        omega
      · simp [riskLevel, h5, h9]
        omega

/-- Claim C10: whenever the dead-load pattern matches with captured
digit groups `a` and `b`, extraction stores the arithmetic mean
`(a + b) / 2` in millimetres (no unit conversion), and the dead-freeboard
rule is `Compliant` exactly when `300 ≤ (a + b) / 2 ≤ 600`. -/
theorem c10_freeboard_dead_mean (text a b : String)
    (h : reSearch deadLoadRE text.data = some [a, b]) :
    (extract text).freeboard_dead = some (((parseNat a : ℚ) + (parseNat b : ℚ)) / 2) ∧
    (statusOf freeboardDeadCheck (extract text) = .ok "Compliant" ↔
      ((300 : ℚ) ≤ ((parseNat a : ℚ) + (parseNat b : ℚ)) / 2 ∧
        ((parseNat a : ℚ) + (parseNat b : ℚ)) / 2 ≤ (600 : ℚ))) := by
  have hval : (extract text).freeboard_dead
      = some (((parseNat a : ℚ) + (parseNat b : ℚ)) / 2) := by
    show freeboardDeadVal text.data = _
    unfold freeboardDeadVal
    rw [h]
  refine ⟨hval, ?_⟩
  have hget : paramsGet (extract text) "freeboard_dead"
      = some (PVal.num (((parseNat a : ℚ) + (parseNat b : ℚ)) / 2)) := by
    have h0 : paramsGet (extract text) "freeboard_dead"
        = ((extract text).freeboard_dead).map PVal.num := rfl
    rw [h0, hval]
    rfl
  have hkey : freeboardDeadCheck.key = "freeboard_dead" := rfl
  have hne : ("Review" : String) ≠ "Compliant" := by decide
  unfold statusOf
  rw [hkey, hget]
  have hfunc : ∀ m : ℚ, freeboardDeadCheck.func (some (PVal.num m))
      = .ok (.bool (decide ((300 : ℚ) ≤ m ∧ m ≤ (600 : ℚ)))) := fun _ => rfl
  rw [hfunc]
  by_cases hm : (300 : ℚ) ≤ ((parseNat a : ℚ) + (parseNat b : ℚ)) / 2 ∧
      ((parseNat a : ℚ) + (parseNat b : ℚ)) / 2 ≤ (600 : ℚ)
  · rw [decide_eq_true hm]
    simp [statusExpr, hm]
  · rw [decide_eq_false hm]
    simp [statusExpr, hne, hm]

/-- Witness for C10 at the text `"DEAD LOAD ONLY = 300-600mm"` (mean
450 mm, hence `Compliant`). -/
theorem c10_freeboard_dead_mean_witness :
    (extract "DEAD LOAD ONLY = 300-600mm").freeboard_dead
      = some (((parseNat "300" : ℚ) + (parseNat "600" : ℚ)) / 2) ∧
    (statusOf freeboardDeadCheck (extract "DEAD LOAD ONLY = 300-600mm") = .ok "Compliant" ↔
      ((300 : ℚ) ≤ ((parseNat "300" : ℚ) + (parseNat "600" : ℚ)) / 2 ∧
        ((parseNat "300" : ℚ) + (parseNat "600" : ℚ)) / 2 ≤ (600 : ℚ))) :=
  c10_freeboard_dead_mean "DEAD LOAD ONLY = 300-600mm" "300" "600"
    (by with_unfolding_all rfl)

/-- If every check in `l` evaluates without raising and carries its own
name into its row, the loop returns one row per check, in order. -/
theorem evalRows_ok (l : List Check) (p : Params)
    (H : ∀ c ∈ l, ∃ r, evalRow c p = .ok r ∧ r.check = c.name) :
    ∃ rows, evalRows l p = .ok rows ∧ rows.map Row.check = l.map Check.name := by
  induction l with
  | nil => exact ⟨[], rfl, rfl⟩
  | cons c cs ih =>
    obtain ⟨r, hr, hname⟩ := H c (List.mem_cons_self c cs)
    obtain ⟨rows, hrows, hmap⟩ := ih (fun c' hc' => H c' (List.mem_cons_of_mem c hc'))
    refine ⟨r :: rows, ?_, ?_⟩
    · simp [evalRows, hr, hrows]
    · simp [hmap, hname]

/-- Claim C8 counterexample: for the extracted map of
`"WAVE HEIGHT < 500mm"` (where `concrete_cover` is absent) the
evaluation loop raises `TypeError` at the concrete-cover rule, so no
rule at all gets a result — refuting "evaluation produces exactly one
ComplianceResult per rule for every extracted field map". -/
theorem c8_missing_cover_omits_all_results :
    evalChecks (extract "WAVE HEIGHT < 500mm") = .error "TypeError" := by
  with_unfolding_all rfl

/-- Claim C8 (amended): for every extracted field map in which
`concrete_cover` is present, evaluation produces exactly one result per
rule of the Rule Registry, in the registry's declaration order; no rule
is omitted because one of the other fields is absent. -/
theorem c8_one_result_per_rule (p : Params) (h : p.concrete_cover ≠ none) :
    ∃ rows, evalChecks p = .ok rows ∧
      rows.length = compliance_checks.length ∧
      rows.map Row.check = compliance_checks.map Check.name := by
  obtain ⟨f1, f2, f3, f4, f5, f6, f7, f8, f9, f10, f11, f12, f13, f14, f15, f16, f17,
    f18, f19, f20, f21, f22⟩ := p
  obtain ⟨qc, rfl⟩ : ∃ q, f15 = some q := by
    rcases f15 with _ | q
    · exact absurd rfl h
    · exact ⟨q, rfl⟩
  have H : ∀ c ∈ compliance_checks, ∃ r,
      evalRow c ⟨f1, f2, f3, f4, f5, f6, f7, f8, f9, f10, f11, f12, f13, f14, some qc,
        f16, f17, f18, f19, f20, f21, f22⟩ = .ok r ∧ r.check = c.name := by
    intro c hc
    simp only [compliance_checks, List.mem_cons, List.not_mem_nil, or_false] at hc
    rcases hc with rfl | rfl | rfl | rfl | rfl | rfl | rfl | rfl | rfl | rfl | rfl |
      rfl | rfl | rfl | rfl | rfl | rfl | rfl | rfl
    · rcases f1 with _ | q <;> exact ⟨_, rfl, rfl⟩
    · rcases f2 with _ | q <;> exact ⟨_, rfl, rfl⟩
    · rcases f3 with _ | q <;> exact ⟨_, rfl, rfl⟩
    · rcases f4 with _ | q <;> exact ⟨_, rfl, rfl⟩
    · rcases f5 with _ | q <;> exact ⟨_, rfl, rfl⟩
    · rcases f6 with _ | q <;> exact ⟨_, rfl, rfl⟩
    · rcases f11 with _ | q <;> exact ⟨_, rfl, rfl⟩
    · rcases f12 with _ | q <;> exact ⟨_, rfl, rfl⟩
    · rcases f13 with _ | q <;> exact ⟨_, rfl, rfl⟩
    · rcases f14 with _ | q <;> exact ⟨_, rfl, rfl⟩
    · exact ⟨_, rfl, rfl⟩
    · rcases f16 with _ | q <;> exact ⟨_, rfl, rfl⟩
    · rcases f17 with _ | q <;> exact ⟨_, rfl, rfl⟩
    · rcases f18 with _ | q <;> exact ⟨_, rfl, rfl⟩
    · rcases f19 with _ | q <;> exact ⟨_, rfl, rfl⟩
    · rcases f20 with _ | q <;> exact ⟨_, rfl, rfl⟩
    · rcases f21 with _ | q <;> exact ⟨_, rfl, rfl⟩
    · rcases f22 with _ | q <;> exact ⟨_, rfl, rfl⟩
    · rcases f10 with _ | q <;> exact ⟨_, rfl, rfl⟩
  obtain ⟨rows, h1, h2⟩ := evalRows_ok compliance_checks _ H
  refine ⟨rows, h1, ?_, h2⟩
  have h3 := congrArg List.length h2
  simpa using h3

/-- Witness for the amended C8 at the extracted map of `"COVER 58 mm"`,
where `concrete_cover` is present. -/
theorem c8_one_result_per_rule_witness :
    ∃ rows, evalChecks (extract "COVER 58 mm") = .ok rows ∧
      rows.length = compliance_checks.length ∧
      rows.map Row.check = compliance_checks.map Check.name :=
  c8_one_result_per_rule (extract "COVER 58 mm") (by with_unfolding_all decide)

end PEval
